import Mathlib

/-!
Verification of the CRT-AUTO/Trading-bot-app-V2 edge functions.

The two serverless handlers (`netlify/edge-functions/processAlert.edge.js` and
`netlify/edge-functions/generateWebhook.edge.js`) are shallowly embedded as pure
Lean functions over an explicit environment that carries everything the
JavaScript code obtains from the outside world: the HTTP request (method, URL
path, parsed JSON body), the database rows the Supabase queries can see, the
exchange's instruments-info response, the outcome of the external order call,
the clock (`Date.now()` in milliseconds), and the success/failure of the two
best-effort database writes.  JavaScript numbers are embedded as exact
rationals (`ℚ`), machine floating point being outside the scope of this
development; JavaScript's `||`/`??` operators are embedded with their
falsy/nullish semantics on `Option`-valued fields.
-/

namespace TradingBot

/-! ### JavaScript string primitives

`String.prototype.split(sep)` with a single-character separator, as used by
`url.pathname.split('/')` and `stepStr.split('.')` in the source.
-/

/-- JavaScript `s.split(c)` on the character list of `s`: splits at every
occurrence of `c`, keeping empty segments, always returning at least one
segment. -/
def splitOnChar (sep : Char) : List Char → List (List Char)
  | [] => [[]]
  | c :: cs =>
    match splitOnChar sep cs with
    | [] => [[]]
    | seg :: rest => if c = sep then [] :: seg :: rest else (c :: seg) :: rest

/-- `parts[parts.length - 1]` after `pathname.split('/')`
(processAlert.edge.js lines 67–68). -/
def jsLastSegment (s : String) : String :=
  String.mk ((splitOnChar '/' s.data).getLastD [])

/-- Numeric value of a decimal digit character. -/
def digitVal (c : Char) : ℕ := c.toNat - 48

/-- Value of a list of decimal digit characters, most significant first. -/
def parseNatDigits (cs : List Char) : ℕ :=
  cs.foldl (fun a c => a * 10 + digitVal c) 0

/-- JavaScript `parseFloat` restricted to plain non-negative decimal numerals
(the shape of Bybit's `lotSizeFilter` fields, e.g. `"0.001"`): digits, an
optional dot, digits.  Text after a second dot is ignored, as `parseFloat`
does. -/
def parseDecimal (s : String) : ℚ :=
  match splitOnChar '.' s.data with
  | [] => 0
  | [ip] => (parseNatDigits ip : ℚ)
  | ip :: fp :: _ => (parseNatDigits ip : ℚ) + (parseNatDigits fp : ℚ) / 10 ^ fp.length

/-- `stepStr.includes('.') ? stepStr.split('.')[1].length : 0`
(processAlert.edge.js line 143). -/
def decimalsOf (s : String) : ℕ :=
  match splitOnChar '.' s.data with
  | _ :: fp :: _ => fp.length
  | _ => 0

/-! ### JavaScript falsy / nullish fallbacks -/

/-- A JSON string field is falsy when it is absent (`undefined`/`null`) or the
empty string. -/
def jsStrFalsy : Option String → Bool
  | none => true
  | some s => s == ""

/-- JavaScript `a || b` on string-valued JSON fields. -/
def jsOr (a b : Option String) : Option String :=
  match a with
  | none => b
  | some s => if s == "" then b else some s

/-- JavaScript `a || dflt` with a non-falsy string literal default. -/
def jsOrD (a : Option String) (dflt : String) : String :=
  match a with
  | none => dflt
  | some s => if s == "" then dflt else s

/-- JavaScript `a || b` on number-valued JSON fields (`0` is falsy). -/
def jsOrNum (a b : Option ℚ) : Option ℚ :=
  match a with
  | none => b
  | some q => if q == 0 then b else some q

/-- JavaScript `a || dflt` on a number-valued field with a numeric default. -/
def jsNumOrD (a : Option ℚ) (dflt : ℚ) : ℚ :=
  match a with
  | none => dflt
  | some q => if q == 0 then dflt else q

/-! ### Quantity normalization (processAlert.edge.js lines 139–149)

```js
let qty = rawQty < minQty ? minQty : Math.floor(rawQty / step) * step;
if (qty < minQty) qty = minQty;
const adjustedQty = parseFloat(qty.toFixed(decimals));
```
-/

/-- `parseFloat(q.toFixed(d))` in exact arithmetic: round to the nearest
multiple of `10^(-d)` (ties rounded up, which agrees with `toFixed` on the
non-negative values that arise here). -/
def roundToDecimals (q : ℚ) (d : ℕ) : ℚ :=
  (round (q * 10 ^ d) : ℤ) / 10 ^ d

/-- The clamp-then-floor step of the normalization: clamp to `minQty` when the
raw quantity is below it, otherwise floor to a multiple of `step`, re-clamping
to `minQty` when the floor fell below it. -/
def clampFloorQty (minQty step rawQty : ℚ) : ℚ :=
  let qty := if rawQty < minQty then minQty else (⌊rawQty / step⌋ : ℚ) * step
  if qty < minQty then minQty else qty

/-- The complete quantity normalization performed by the alert processor. -/
def normalizeQty (minQty step : ℚ) (d : ℕ) (rawQty : ℚ) : ℚ :=
  roundToDecimals (clampFloorQty minQty step rawQty) d

/-! ### Data model

The database rows and JSON payloads touched by the two handlers, with
`Option` marking fields that may be absent (`undefined`/`null` in JS).
-/

/-- A row of the `bots` table as embedded via `select('*, bots(*)')`. -/
structure BotRow where
  symbol : Option String
  default_side : Option String
  default_order_type : Option String
  default_quantity : Option ℚ
  default_stop_loss : Option ℚ
  default_take_profit : Option ℚ
  test_mode : Bool
  trade_count : Option ℕ
  deriving DecidableEq, Repr

/-- A row of the `webhooks` table joined with its bot. `expires_at` and all
other timestamps are milliseconds since the epoch; the ISO-8601 strings the
code compares are order-isomorphic to these. -/
structure WebhookRow where
  webhook_token : String
  user_id : String
  bot_id : String
  expires_at : ℕ
  bots : BotRow
  deriving DecidableEq, Repr

/-- A row of the `api_keys` table. -/
structure ApiKeyRow where
  user_id : String
  exchange : String
  api_key : String
  api_secret : String
  deriving DecidableEq, Repr

/-- The parsed TradingView alert JSON; every field optional. -/
structure AlertPayload where
  symbol : Option String := none
  side : Option String := none
  orderType : Option String := none
  quantity : Option ℚ := none
  price : Option ℚ := none
  stopLoss : Option ℚ := none
  takeProfit : Option ℚ := none
  deriving DecidableEq, Repr

/-- The empty object `{}` the code falls back to when the body fails to
parse. -/
def AlertPayload.empty : AlertPayload := {}

/-- The instruments-info response, flattened to the fields the handler reads:
`retCode`, `retMsg`, and `result.list[0].lotSizeFilter` with the
`minOrderQty ?? minTrdAmt` and `qtyStep ?? stepSize` coalescing already
applied (no claim concerns a missing `list[0]` or a missing filter field). -/
structure InstInfo where
  retCode : ℤ
  retMsg : String
  minQtyStr : String
  stepStr : String
  deriving DecidableEq, Repr

/-- The `orderParams` object built at processAlert.edge.js lines 156–167. -/
structure OrderParams where
  apiKey : String
  apiSecret : String
  symbol : String
  side : String
  orderType : String
  quantity : ℚ
  price : Option ℚ
  stopLoss : Option ℚ
  takeProfit : Option ℚ
  testnet : Bool
  deriving DecidableEq, Repr

/-- The shape returned by the dispatch step (simulated or via
`executeBybitOrder`). -/
structure OrderResult where
  orderId : String
  symbol : String
  side : String
  orderType : String
  qty : ℚ
  price : ℚ
  status : String
  deriving DecidableEq, Repr

/-- The row the handler attempts to insert into `trades`. -/
structure TradeInsert where
  user_id : String
  bot_id : String
  symbol : String
  side : String
  order_type : String
  quantity : ℚ
  price : ℚ
  order_id : String
  status : String
  created_at : ℕ
  deriving DecidableEq, Repr

/-- The update the handler attempts on the `bots` row. -/
structure BotUpdate where
  bot_id : String
  last_trade_at : ℕ
  trade_count : ℕ
  deriving DecidableEq, Repr

/-- The JSON body of the processAlert response. -/
inductive AlertRespBody where
  | empty : AlertRespBody
  | err (msg : String) : AlertRespBody
  | ok (orderId : String) (status : String) (testMode : Bool) : AlertRespBody
  deriving DecidableEq, Repr

/-- The order identifier carried by a success response, if any. -/
def AlertRespBody.orderIdField : AlertRespBody → Option String
  | .ok oid _ _ => some oid
  | _ => none

/-- Everything observable about one processAlert invocation: the HTTP
response plus the side effects it attempted.  `tradeInsert`/`botUpdate` are
`some` exactly when the corresponding database write was issued;
`orderCallMade` records whether `executeBybitOrder` was invoked. -/
structure AlertOutcome where
  status : ℕ
  body : AlertRespBody
  orderCallMade : Bool
  tradeInsert : Option TradeInsert
  botUpdate : Option BotUpdate
  deriving DecidableEq, Repr

/-- The complete environment of one processAlert invocation.  `body = none`
models a request body that is not parseable JSON.  `execOutcome` is the
result of the external `executeBybitOrder` call, consulted only on the
non-test path.  `tradeInsertError`/`botUpdateError` model the `error` halves
of the two best-effort writes; the source only logs them to the console, so
they appear in no other definition — which is precisely the audited
behaviour. -/
structure AlertEnv where
  method : String
  envOk : Bool
  path : String
  body : Option AlertPayload
  webhooks : List WebhookRow
  apiKeys : List ApiKeyRow
  instInfo : InstInfo
  execOutcome : Except String OrderResult
  now : ℕ
  tradeInsertError : Bool
  botUpdateError : Bool

/-! ### The processAlert handler -/

/-- Supabase `.single()`: succeeds only when exactly one row matches. -/
def findSingle (p : α → Bool) (rows : List α) : Option α :=
  match rows.filter p with
  | [a] => some a
  | _ => none

/-- The token lookup: `.eq('webhook_token', token).gt('expires_at', now)`
with `.single()` (processAlert.edge.js lines 73–78). -/
def resolveWebhook (env : AlertEnv) : Option WebhookRow :=
  findSingle
    (fun w => w.webhook_token == jsLastSegment env.path &&
      decide (env.now < w.expires_at))
    env.webhooks

/-- The credential lookup: `.eq('user_id', …).eq('exchange', 'bybit')` with
`.single()` (lines 105–110). -/
def resolveApiKey (env : AlertEnv) (w : WebhookRow) : Option ApiKeyRow :=
  findSingle (fun k => k.user_id == w.user_id && k.exchange == "bybit") env.apiKeys

/-- `alertData`, falling back to `{}` when the body did not parse
(lines 95–101). -/
def alertPayloadOf (env : AlertEnv) : AlertPayload :=
  env.body.getD AlertPayload.empty

/-- `(alertData.symbol || bot.symbol || '').toUpperCase()` (line 127). -/
def alertSymbol (a : AlertPayload) (bot : BotRow) : String :=
  (jsOrD (jsOr a.symbol bot.symbol) "").toUpper

/-- `parseFloat(alertData.quantity ?? bot.default_quantity ?? 0)`
(line 144); `??` is nullish coalescing, so a present `0` is kept. -/
def alertRawQty (a : AlertPayload) (bot : BotRow) : ℚ :=
  (a.quantity.orElse (fun _ => bot.default_quantity)).getD 0

/-- The normalized quantity the handler computes from the instrument
metadata (lines 139–149). -/
def alertAdjustedQty (env : AlertEnv) (a : AlertPayload) (bot : BotRow) : ℚ :=
  normalizeQty (parseDecimal env.instInfo.minQtyStr)
    (parseDecimal env.instInfo.stepStr)
    (decimalsOf env.instInfo.stepStr)
    (alertRawQty a bot)

/-- The `orderParams` construction (lines 156–167). -/
def buildOrderParams (k : ApiKeyRow) (a : AlertPayload) (bot : BotRow)
    (symbol : String) (qty : ℚ) : OrderParams where
  apiKey := k.api_key
  apiSecret := k.api_secret
  symbol := symbol
  side := jsOrD (jsOr a.side bot.default_side) "Buy"
  orderType := jsOrD (jsOr a.orderType bot.default_order_type) "Market"
  quantity := qty
  price := a.price
  stopLoss := jsOrNum a.stopLoss bot.default_stop_loss
  takeProfit := jsOrNum a.takeProfit bot.default_take_profit
  testnet := bot.test_mode

/-- The fully resolved order parameters for one invocation. -/
def alertOrderParams (env : AlertEnv) (w : WebhookRow) (k : ApiKeyRow) : OrderParams :=
  buildOrderParams k (alertPayloadOf env) w.bots
    (alertSymbol (alertPayloadOf env) w.bots)
    (alertAdjustedQty env (alertPayloadOf env) w.bots)

/-- The simulated order result of the test-mode branch (lines 180–188):
`orderId` is the template literal `test-${Date.now()}`. -/
def simulatedOrder (op : OrderParams) (now : ℕ) : OrderResult where
  orderId := "test-" ++ Nat.repr now
  symbol := op.symbol
  side := op.side
  orderType := op.orderType
  qty := op.quantity
  price := jsNumOrD op.price 0
  status := "TEST_ORDER"

/-- `bot.trade_count ? bot.trade_count + 1 : 1` (line 226): `0`, `null` and
`undefined` are all falsy. -/
def nextTradeCount : Option ℕ → ℕ
  | none => 1
  | some 0 => 1
  | some (n + 1) => n + 2

/-- The tail of the success path (lines 197–251): attempt the trade insert
and the bot update, then answer 200 with the dispatch outcome.  The results
of the two writes never influence the response. -/
def finishAlert (env : AlertEnv) (w : WebhookRow) (r : OrderResult)
    (called : Bool) : AlertOutcome where
  status := 200
  body := .ok r.orderId r.status w.bots.test_mode
  orderCallMade := called
  tradeInsert := some
    { user_id := w.user_id, bot_id := w.bot_id, symbol := r.symbol,
      side := r.side, order_type := r.orderType, quantity := r.qty,
      price := r.price, order_id := r.orderId, status := r.status,
      created_at := env.now }
  botUpdate := some
    { bot_id := w.bot_id, last_trade_at := env.now,
      trade_count := nextTradeCount w.bots.trade_count }

/-- The processAlert edge function, end to end. -/
def processAlertHandler (env : AlertEnv) : AlertOutcome :=
  if env.method = "OPTIONS" then
    { status := 204, body := .empty, orderCallMade := false,
      tradeInsert := none, botUpdate := none }
  else if env.method ≠ "POST" then
    { status := 405, body := .err "Method not allowed", orderCallMade := false,
      tradeInsert := none, botUpdate := none }
  else if env.envOk = false then
    { status := 500, body := .err "Server configuration error",
      orderCallMade := false, tradeInsert := none, botUpdate := none }
  else
    match resolveWebhook env with
    | none =>
      { status := 404, body := .err "Invalid or expired webhook",
        orderCallMade := false, tradeInsert := none, botUpdate := none }
    | some w =>
      match resolveApiKey env w with
      | none =>
        { status := 400, body := .err "API credentials not found",
          orderCallMade := false, tradeInsert := none, botUpdate := none }
      | some k =>
        if env.instInfo.retCode ≠ 0 then
          { status := 500,
            body := .err ("InstrumentsInfo error: " ++ env.instInfo.retMsg),
            orderCallMade := false, tradeInsert := none, botUpdate := none }
        else
          if w.bots.test_mode then
            finishAlert env w (simulatedOrder (alertOrderParams env w k) env.now) false
          else
            match env.execOutcome with
            | .error msg =>
              { status := 500, body := .err msg, orderCallMade := true,
                tradeInsert := none, botUpdate := none }
            | .ok r => finishAlert env w r true

/-! ### The generateWebhook handler -/

/-- The parsed body of a generateWebhook request.  `expirationDays = none`
models an absent field, for which the destructuring default `= 30`
applies. -/
structure GenBody where
  userId : Option String := none
  botId : Option String := none
  expirationDays : Option ℕ := none
  deriving DecidableEq, Repr

/-- The row the handler inserts into `webhooks`; timestamps in milliseconds
since the epoch (serialized by `toISOString()` in the source). -/
structure WebhookInsert where
  user_id : String
  bot_id : String
  webhook_token : String
  expires_at : ℕ
  created_at : ℕ
  deriving DecidableEq, Repr

/-- The JSON body of the generateWebhook response. -/
inductive GenRespBody where
  | empty : GenRespBody
  | err (msg : String) : GenRespBody
  | ok (webhookUrl : String) (expiresAt : ℕ) : GenRespBody
  deriving DecidableEq, Repr

/-- The response plus the insert the invocation attempted (`some` exactly
when the `insert` call was issued). -/
structure GenOutcome where
  status : ℕ
  body : GenRespBody
  insert : Option WebhookInsert
  deriving DecidableEq, Repr

/-- The environment of one generateWebhook invocation.  `token` is the
`nanoid(32)` draw (random, hence an input of the model); `protocolHost` is
`` `${url.protocol}//${url.host}` ``; `insertError = some msg` makes the
database insert fail, which the code re-throws as a 500. -/
structure GenEnv where
  method : String
  envOk : Bool
  body : Option GenBody
  token : String
  protocolHost : String
  now : ℕ
  insertError : Option String
  deriving DecidableEq, Repr

/-- The default nanoid alphabet, from which every character of a
`nanoid(32)` token is drawn. -/
def nanoidAlphabet : String :=
  "ABCDEFGHIJKLMNOPQRSTUVWXYZabcdefghijklmnopqrstuvwxyz0123456789_-"

/-- Milliseconds per day: in the UTC environment of an edge function,
`expirationDate.setDate(expirationDate.getDate() + days)` advances the
timestamp by exactly `days * 86400000` ms. -/
def dayMs : ℕ := 86400000

/-- The generateWebhook edge function, end to end
(generateWebhook.edge.js lines 12–149). -/
def generateWebhookHandler (env : GenEnv) : GenOutcome :=
  if env.method = "OPTIONS" then
    { status := 204, body := .empty, insert := none }
  else if env.method ≠ "POST" then
    { status := 405, body := .err "Method not allowed", insert := none }
  else if env.envOk = false then
    { status := 500, body := .err "Server configuration error", insert := none }
  else
    match env.body with
    | none => { status := 500, body := .err "Unexpected end of JSON input", insert := none }
    | some b =>
      if jsStrFalsy b.userId || jsStrFalsy b.botId then
        { status := 400, body := .err "Missing required fields", insert := none }
      else
        let expirationDays := b.expirationDays.getD 30
        let expiresAt := env.now + expirationDays * dayMs
        let row : WebhookInsert :=
          { user_id := b.userId.getD "", bot_id := b.botId.getD "",
            webhook_token := env.token, expires_at := expiresAt,
            created_at := env.now }
        match env.insertError with
        | some msg => { status := 500, body := .err msg, insert := some row }
        | none =>
          { status := 200,
            body := .ok (env.protocolHost ++ "/.netlify/functions/processAlert/" ++ env.token)
              expiresAt,
            insert := some row }

/-! ### Arithmetic lemmas about the quantity normalization -/

lemma pow10_pos (d : ℕ) : (0 : ℚ) < 10 ^ d := by positivity

/-- Rounding to `d` decimals is the identity on multiples of `10^(-d)`. -/
lemma roundToDecimals_of_int (q : ℚ) (d : ℕ) (k : ℤ) (h : q * 10 ^ d = (k : ℚ)) :
    roundToDecimals q d = q := by
  have h10 : ((10 : ℚ) ^ d) ≠ 0 := (pow10_pos d).ne'
  unfold roundToDecimals
  rw [h, round_intCast, ← h, mul_div_cancel_right₀ _ h10]

/-- The rounded value, scaled back up, is the integer `round` produced. -/
lemma roundToDecimals_mul (q : ℚ) (d : ℕ) :
    roundToDecimals q d * 10 ^ d = ((round (q * 10 ^ d) : ℤ) : ℚ) := by
  have h10 : ((10 : ℚ) ^ d) ≠ 0 := (pow10_pos d).ne'
  unfold roundToDecimals
  rw [div_mul_cancel₀ _ h10]

/-- Rounding to `d` decimals moves a value by at most half a unit in the last
place. -/
lemma abs_roundToDecimals_sub (q : ℚ) (d : ℕ) :
    |roundToDecimals q d - q| ≤ 1 / (2 * 10 ^ d) := by
  have h10 : (0 : ℚ) < 10 ^ d := pow10_pos d
  unfold roundToDecimals
  have e : ((round (q * 10 ^ d) : ℤ) : ℚ) / 10 ^ d - q
      = (((round (q * 10 ^ d) : ℤ) : ℚ) - q * 10 ^ d) / 10 ^ d := by
    field_simp
    ring
  rw [e, abs_div, abs_of_pos h10]
  have h := abs_sub_round (q * 10 ^ d)
  rw [abs_sub_comm] at h
  calc |((round (q * 10 ^ d) : ℤ) : ℚ) - q * 10 ^ d| / 10 ^ d
      ≤ (1 / 2) / 10 ^ d := (div_le_div_right h10).mpr h
    _ = 1 / (2 * 10 ^ d) := by rw [div_div]

/-- The clamp-then-floor step never returns less than `minQty`. -/
lemma le_clampFloorQty (mq step raw : ℚ) : mq ≤ clampFloorQty mq step raw := by
  unfold clampFloorQty
  dsimp only
  by_cases h2 : (if raw < mq then mq else (⌊raw / step⌋ : ℚ) * step) < mq
  · rw [if_pos h2]
  · rw [if_neg h2]
    exact le_of_not_lt h2

/-- The clamp-then-floor step returns either `minQty` or the floored multiple
of `step` (in the latter case it is at least `minQty`). -/
lemma clampFloorQty_cases (mq step raw : ℚ) :
    clampFloorQty mq step raw = mq ∨
      (clampFloorQty mq step raw = (⌊raw / step⌋ : ℚ) * step ∧
        mq ≤ clampFloorQty mq step raw) := by
  have hge := le_clampFloorQty mq step raw
  unfold clampFloorQty at hge ⊢
  dsimp only at hge ⊢
  by_cases h1 : raw < mq
  · rw [if_pos h1] at hge ⊢
    rw [if_neg (lt_irrefl mq)]
    exact .inl rfl
  · rw [if_neg h1] at hge ⊢
    by_cases h2 : (⌊raw / step⌋ : ℚ) * step < mq
    · rw [if_pos h2] at hge ⊢
      exact .inl rfl
    · rw [if_neg h2] at hge ⊢
      exact .inr ⟨rfl, hge⟩

/-- For positive step, the floored multiple does not exceed the raw value. -/
lemma floor_div_mul_le (a s : ℚ) (hs : 0 < s) : (⌊a / s⌋ : ℚ) * s ≤ a := by
  rw [← le_div_iff hs]
  exact Int.floor_le _

/-- Flooring is the identity on exact multiples of the step. -/
lemma floor_div_mul_self (k : ℤ) (s : ℚ) (hs : s ≠ 0) :
    (⌊((k : ℚ) * s) / s⌋ : ℚ) * s = (k : ℚ) * s := by
  rw [mul_div_assoc, div_self hs, mul_one, Int.floor_intCast]

/-- Every value the normalization can output is a fixed point of the
normalization, provided the step is itself a multiple of `10^(-d)` (which it
always is, `d` being the decimal count of the step's own textual
representation).  The two admissible shapes of an output: the rounding of
`minQty`, or a multiple of the step that is at least `minQty`. -/
lemma normalizeQty_fixed (mq step : ℚ) (d : ℕ) (t : ℚ)
    (hstep : 0 < step) (hstep_int : ∃ s : ℤ, step * 10 ^ d = (s : ℚ))
    (ht_int : ∃ j : ℤ, t * 10 ^ d = (j : ℚ))
    (hshape : t = roundToDecimals mq d ∨ ((∃ k : ℤ, t = (k : ℚ) * step) ∧ mq ≤ t)) :
    normalizeQty mq step d t = t := by
  obtain ⟨s, hs⟩ := hstep_int
  obtain ⟨j, hj⟩ := ht_int
  rcases hshape with hA | ⟨⟨k, hk⟩, hge⟩
  · -- t is the rounding of mq
    have hclose : |t - mq| ≤ 1 / (2 * 10 ^ d) := hA ▸ abs_roundToDecimals_sub mq d
    by_cases hlt : t < mq
    · -- the clamp kicks in and reproduces roundToDecimals mq = t
      unfold normalizeQty clampFloorQty
      dsimp only
      rw [if_pos hlt, if_neg (lt_irrefl mq)]
      exact hA.symm
    · have hge' : mq ≤ t := le_of_not_lt hlt
      have hm_le : (⌊t / step⌋ : ℚ) * step ≤ t := floor_div_mul_le t step hstep
      have hm_int : ((⌊t / step⌋ : ℚ) * step) * 10 ^ d = ((⌊t / step⌋ * s : ℤ) : ℚ) := by
        push_cast
        rw [mul_assoc, hs]
      by_cases hmlt : (⌊t / step⌋ : ℚ) * step < mq
      · -- floored value fell below mq: re-clamp, then round mq back to t
        unfold normalizeQty clampFloorQty
        dsimp only
        rw [if_neg hlt, if_pos hmlt]
        exact hA.symm
      · -- floored value still ≥ mq: it must equal t
        have hmt : (⌊t / step⌋ : ℚ) * step = t := by
          by_contra hne
          have h1 : (⌊t / step⌋ : ℚ) * step < t := lt_of_le_of_ne hm_le hne
          have h2 : ((⌊t / step⌋ * s : ℤ) : ℚ) < (j : ℚ) := by
            rw [← hj, ← hm_int]
            exact mul_lt_mul_of_pos_right h1 (pow10_pos d)
          have h3 : (⌊t / step⌋ * s : ℤ) + 1 ≤ j := by exact_mod_cast h2
          have h4 : ((⌊t / step⌋ : ℚ) * step) * 10 ^ d + 1 ≤ t * 10 ^ d := by
            rw [hj, hm_int]
            exact_mod_cast h3
          have h5 : mq ≤ (⌊t / step⌋ : ℚ) * step := le_of_not_lt hmlt
          have h6 : t - mq ≤ 1 / (2 * 10 ^ d) := (abs_le.mp hclose).2
          have h10pos : (0 : ℚ) < 10 ^ d := pow10_pos d
          have h7 : mq * 10 ^ d ≤ ((⌊t / step⌋ : ℚ) * step) * 10 ^ d :=
            mul_le_mul_of_nonneg_right h5 h10pos.le
          have h8 : (t - mq) * 10 ^ d ≤ (1 / (2 * 10 ^ d)) * 10 ^ d :=
            mul_le_mul_of_nonneg_right h6 h10pos.le
          have h9 : (1 / (2 * (10 : ℚ) ^ d)) * 10 ^ d = 1 / 2 := by
            field_simp
            ring
          rw [h9, sub_mul] at h8
          linarith
        unfold normalizeQty clampFloorQty
        dsimp only
        rw [if_neg hlt, hmt, if_neg hlt]
        exact roundToDecimals_of_int t d j hj
  · -- t is a multiple of the step, at least mq
    have hnotlt : ¬ t < mq := not_lt.mpr hge
    have hfloor : (⌊t / step⌋ : ℚ) * step = t := by
      rw [hk]
      exact floor_div_mul_self k step hstep.ne'
    unfold normalizeQty clampFloorQty
    dsimp only
    rw [if_neg hnotlt, hfloor, if_neg hnotlt]
    exact roundToDecimals_of_int t d j hj

/-! ### Injectivity of the decimal rendering used by `test-${Date.now()}` -/

lemma toDigitsCore_append (fuel n : ℕ) (ds : List Char) :
    Nat.toDigitsCore 10 fuel n ds = Nat.toDigitsCore 10 fuel n [] ++ ds := by
  induction fuel generalizing n ds with
  | zero => simp [Nat.toDigitsCore]
  | succ fuel ih =>
    simp only [Nat.toDigitsCore]
    by_cases h0 : n / 10 = 0
    · simp [h0]
    · rw [if_neg h0, if_neg h0, ih (n / 10) [Nat.digitChar (n % 10)],
        ih (n / 10) (Nat.digitChar (n % 10) :: ds), List.append_assoc]
      rfl

lemma digitVal_digitChar (k : ℕ) (h : k < 10) : digitVal (Nat.digitChar k) = k := by
  interval_cases k <;> rfl

lemma parseNatDigits_append (l1 l2 : List Char) :
    parseNatDigits (l1 ++ l2) =
      l2.foldl (fun a c => a * 10 + digitVal c) (parseNatDigits l1) := by
  unfold parseNatDigits
  rw [List.foldl_append]

lemma parse_toDigitsCore (fuel n : ℕ) (h : n < fuel) :
    parseNatDigits (Nat.toDigitsCore 10 fuel n []) = n := by
  induction fuel generalizing n with
  | zero => omega
  | succ fuel ih =>
    simp only [Nat.toDigitsCore]
    by_cases h0 : n / 10 = 0
    · rw [if_pos h0]
      have hn : n % 10 = n := by omega
      simp [parseNatDigits, hn, digitVal_digitChar n (by omega)]
    · rw [if_neg h0, toDigitsCore_append, parseNatDigits_append]
      have hrec : parseNatDigits (Nat.toDigitsCore 10 fuel (n / 10) []) = n / 10 :=
        ih (n / 10) (by omega)
      simp [List.foldl, hrec, digitVal_digitChar (n % 10) (by omega)]
      omega

/-- `Nat.repr` round-trips through the digit parser. -/
lemma parseNatDigits_repr (n : ℕ) : parseNatDigits (Nat.repr n).data = n := by
  have hdata : (Nat.repr n).data = Nat.toDigitsCore 10 (n + 1) n [] := rfl
  rw [hdata]
  exact parse_toDigitsCore (n + 1) n (Nat.lt_succ_self n)

/-- The decimal rendering of a natural number is injective. -/
lemma natRepr_injective : Function.Injective Nat.repr := by
  intro a b h
  have h2 := congrArg (fun s => parseNatDigits s.data) h
  simpa [parseNatDigits_repr] using h2

/-- Synthetic `test-${now}` order identifiers collide only on equal
timestamps. -/
lemma testOrderId_injective (a b : ℕ)
    (h : ("test-" ++ Nat.repr a : String) = "test-" ++ Nat.repr b) : a = b := by
  apply natRepr_injective
  apply String.ext
  have h2 := congrArg String.data h
  rw [String.data_append, String.data_append] at h2
  exact List.append_cancel_left h2

/-! ### The last path segment of a slash-joined URL -/

lemma splitOnChar_ne_nil (sep : Char) : ∀ l : List Char, splitOnChar sep l ≠ []
  | [] => by simp [splitOnChar]
  | c :: cs => by
    unfold splitOnChar
    cases hcs : splitOnChar sep cs with
    | nil => simp
    | cons seg rest =>
      dsimp only
      split <;> simp

lemma splitOnChar_no_sep (sep : Char) (t : List Char) (h : sep ∉ t) :
    splitOnChar sep t = [t] := by
  induction t with
  | nil => rfl
  | cons c cs ih =>
    have hc : ¬ c = sep := fun e => h (e ▸ List.mem_cons_self c cs)
    have hcs : sep ∉ cs := fun m => h (List.mem_cons_of_mem c m)
    unfold splitOnChar
    rw [ih hcs]
    simp [hc]

lemma two_le_length_splitOnChar (sep : Char) (l : List Char) (h : sep ∈ l) :
    2 ≤ (splitOnChar sep l).length := by
  induction l with
  | nil => simp at h
  | cons c cs ih =>
    unfold splitOnChar
    cases hcs : splitOnChar sep cs with
    | nil => exact absurd hcs (splitOnChar_ne_nil sep cs)
    | cons seg rest =>
      dsimp only
      by_cases hc : c = sep
      · simp [hc]
      · rw [if_neg hc]
        have hmem : sep ∈ cs := by
          rcases List.mem_cons.mp h with he | hm
          · exact absurd he.symm hc
          · exact hm
        have h2 := ih hmem
        rw [hcs] at h2
        simpa using h2

lemma splitOnChar_cons (sep c : Char) (cs : List Char) :
    splitOnChar sep (c :: cs) =
      match splitOnChar sep cs with
      | [] => [[]]
      | seg :: rest => if c = sep then [] :: seg :: rest else (c :: seg) :: rest := rfl

lemma getLastD_splitOnChar_append (sep : Char) (xs ys : List Char) (h : sep ∈ ys) :
    (splitOnChar sep (xs ++ ys)).getLastD [] = (splitOnChar sep ys).getLastD [] := by
  induction xs with
  | nil => rfl
  | cons c xs ih =>
    have hmem : sep ∈ xs ++ ys := List.mem_append_right xs h
    show (splitOnChar sep (c :: (xs ++ ys))).getLastD [] = _
    cases hr : splitOnChar sep (xs ++ ys) with
    | nil => exact absurd hr (splitOnChar_ne_nil sep (xs ++ ys))
    | cons seg rest =>
      rw [splitOnChar_cons, hr]
      dsimp only
      by_cases hc : c = sep
      · rw [if_pos hc, List.getLastD_cons, ← hr]
        exact ih
      · rw [if_neg hc]
        have hlen := two_le_length_splitOnChar sep (xs ++ ys) hmem
        rw [hr] at hlen
        cases rest with
        | nil => simp at hlen
        | cons r rs =>
          calc ((c :: seg) :: r :: rs).getLastD []
              = (r :: rs).getLastD (c :: seg) := List.getLastD_cons _ _ _
            _ = rs.getLastD r := List.getLastD_cons _ _ _
            _ = (r :: rs).getLastD seg := (List.getLastD_cons _ _ _).symm
            _ = (seg :: r :: rs).getLastD [] := (List.getLastD_cons _ _ _).symm
            _ = (splitOnChar sep (xs ++ ys)).getLastD [] := by rw [hr]
            _ = (splitOnChar sep ys).getLastD [] := ih

lemma lastSegment_append (sep : Char) (xs t : List Char) (h : sep ∉ t) :
    (splitOnChar sep (xs ++ sep :: t)).getLastD [] = t := by
  rw [getLastD_splitOnChar_append sep xs (sep :: t) (List.mem_cons_self sep t)]
  have hsplit : splitOnChar sep (sep :: t) = [] :: [t] := by
    unfold splitOnChar
    rw [splitOnChar_no_sep sep t h]
    simp
  rw [hsplit]
  rfl

/-- The last `/`-separated segment of `a ++ "/" ++ token` is `token`, for any
token free of slashes. -/
lemma jsLastSegment_append (a token : String) (h : '/' ∉ token.data) :
    jsLastSegment (a ++ "/" ++ token) = token := by
  unfold jsLastSegment
  have hdata : (a ++ "/" ++ token).data = a.data ++ '/' :: token.data := by
    rw [String.data_append, String.data_append, List.append_assoc]
    rfl
  rw [hdata, lastSegment_append '/' a.data token.data h]

/-! ### Claim C1 — the normalization's clamping guarantee -/

/-- Claim C1, counterexample: with instrument metadata `minOrderQty = "0.0149"`
and `qtyStep = "0.01"` (so two decimals) and a raw quantity of `0.003`, the
raw quantity is below `minQty`, yet the normalization returns `0.01`, which is
strictly below `minQty` — the final rounding to the step's two decimals
truncates the clamped minimum.  This refutes both "the result is ≥ minQty"
and "if rawQty < minQty it returns minQty". -/
theorem normalizeQty_clamp_below_minQty :
    parseDecimal "0.003" < parseDecimal "0.0149" ∧
    normalizeQty (parseDecimal "0.0149") (parseDecimal "0.01") (decimalsOf "0.01")
        (parseDecimal "0.003") = 1 / 100 ∧
    (1 : ℚ) / 100 < parseDecimal "0.0149" := by
  have hs1 : splitOnChar '.' "0.0149".data = [['0'], ['0', '1', '4', '9']] := by decide
  have hp1 : parseNatDigits ['0', '1', '4', '9'] = 149 := by decide
  have hp0 : parseNatDigits ['0'] = 0 := by decide
  have h1 : parseDecimal "0.0149" = 149 / 10000 := by
    unfold parseDecimal
    rw [hs1]
    simp only [hp1, hp0, List.length_cons, List.length_nil]
    norm_num
  have hs2 : splitOnChar '.' "0.01".data = [['0'], ['0', '1']] := by decide
  have hp2 : parseNatDigits ['0', '1'] = 1 := by decide
  have h2 : parseDecimal "0.01" = 1 / 100 := by
    unfold parseDecimal
    rw [hs2]
    simp only [hp2, hp0, List.length_cons, List.length_nil]
    norm_num
  have hs3 : splitOnChar '.' "0.003".data = [['0'], ['0', '0', '3']] := by decide
  have hp3 : parseNatDigits ['0', '0', '3'] = 3 := by decide
  have h3 : parseDecimal "0.003" = 3 / 1000 := by
    unfold parseDecimal
    rw [hs3]
    simp only [hp3, hp0, List.length_cons, List.length_nil]
    norm_num
  have h4 : decimalsOf "0.01" = 2 := by decide
  rw [h1, h2, h3, h4]
  have hround : round ((149 : ℚ) / 100) = 1 := by
    rw [round_eq]
    apply Int.floor_eq_iff.mpr
    norm_num
  refine ⟨by norm_num, ?_, by norm_num⟩
  norm_num [normalizeQty, clampFloorQty, roundToDecimals, hround]

/-- Claim C1 (amended): for `rawQty ≥ 0`, a positive step `sn / 10^d` whose
textual representation has `d` decimal places, and a `minQty = mn / 10^d`
that is itself representable with those `d` decimals, the normalization
returns a value `≥ minQty`; if `rawQty < minQty` it returns `minQty` exactly,
and if `rawQty ≥ minQty` it returns `⌊rawQty / step⌋ * step`, re-clamped to
`minQty` when the floor fell below it (the final rounding to `d` decimals is
the identity on all these values).  Without the representability proviso on
`minQty` the original claim is refuted by `normalizeQty_clamp_below_minQty`. -/
theorem normalizeQty_spec (mn sn d : ℕ) (raw : ℚ) (hsn : 0 < sn) (hraw : 0 ≤ raw) :
    ((mn : ℚ) / 10 ^ d ≤ normalizeQty ((mn : ℚ) / 10 ^ d) ((sn : ℚ) / 10 ^ d) d raw) ∧
    (raw < (mn : ℚ) / 10 ^ d →
      normalizeQty ((mn : ℚ) / 10 ^ d) ((sn : ℚ) / 10 ^ d) d raw = (mn : ℚ) / 10 ^ d) ∧
    ((mn : ℚ) / 10 ^ d ≤ raw →
      normalizeQty ((mn : ℚ) / 10 ^ d) ((sn : ℚ) / 10 ^ d) d raw =
        (if (⌊raw / ((sn : ℚ) / 10 ^ d)⌋ : ℚ) * ((sn : ℚ) / 10 ^ d) < (mn : ℚ) / 10 ^ d
          then (mn : ℚ) / 10 ^ d
          else (⌊raw / ((sn : ℚ) / 10 ^ d)⌋ : ℚ) * ((sn : ℚ) / 10 ^ d))) := by
  set mq : ℚ := (mn : ℚ) / 10 ^ d with hmqdef
  set step : ℚ := (sn : ℚ) / 10 ^ d with hstepdef
  have h10 : ((10 : ℚ) ^ d) ≠ 0 := (pow10_pos d).ne'
  have hmq_int : mq * 10 ^ d = ((mn : ℤ) : ℚ) := by
    rw [hmqdef]
    push_cast
    exact div_mul_cancel₀ _ h10
  have hf_int : ((⌊raw / step⌋ : ℚ) * step) * 10 ^ d = ((⌊raw / step⌋ * sn : ℤ) : ℚ) := by
    push_cast
    rw [mul_assoc, hstepdef, div_mul_cancel₀ _ h10]
  by_cases hlt : raw < mq
  · have hclamp : clampFloorQty mq step raw = mq := by
      unfold clampFloorQty
      dsimp only
      rw [if_pos hlt, if_neg (lt_irrefl mq)]
    have hnorm : normalizeQty mq step d raw = mq := by
      unfold normalizeQty
      rw [hclamp]
      exact roundToDecimals_of_int _ _ _ hmq_int
    exact ⟨hnorm.ge, fun _ => hnorm, fun hge => absurd hlt (not_lt.mpr hge)⟩
  · have hclamp : clampFloorQty mq step raw =
        (if (⌊raw / step⌋ : ℚ) * step < mq then mq else (⌊raw / step⌋ : ℚ) * step) := by
      unfold clampFloorQty
      dsimp only
      rw [if_neg hlt]
    by_cases hflt : (⌊raw / step⌋ : ℚ) * step < mq
    · have hnorm : normalizeQty mq step d raw = mq := by
        unfold normalizeQty
        rw [hclamp, if_pos hflt]
        exact roundToDecimals_of_int _ _ _ hmq_int
      exact ⟨hnorm.ge, fun h => absurd h hlt, fun _ => by rw [hnorm, if_pos hflt]⟩
    · have hnorm : normalizeQty mq step d raw = (⌊raw / step⌋ : ℚ) * step := by
        unfold normalizeQty
        rw [hclamp, if_neg hflt]
        exact roundToDecimals_of_int _ _ _ hf_int
      refine ⟨?_, fun h => absurd h hlt, fun _ => by rw [hnorm, if_neg hflt]⟩
      rw [hnorm]
      exact le_of_not_lt hflt

/-- Witness for `normalizeQty_spec`: the spec's own example
`minQty = 0.01, step = 0.01, rawQty = 0.127` evaluates to `0.12`. -/
theorem normalizeQty_spec_witness :
    normalizeQty ((1 : ℚ) / 10 ^ 2) ((1 : ℚ) / 10 ^ 2) 2 (127 / 1000) = 3 / 25 := by
  have h := (normalizeQty_spec 1 1 2 (127 / 1000) (by norm_num) (by norm_num)).2.2
    (by norm_num)
  push_cast at h
  rw [h]
  have hfl : ⌊(127 / 1000 : ℚ) / ((1 : ℚ) / 10 ^ 2)⌋ = (12 : ℤ) := by
    apply Int.floor_eq_iff.mpr
    norm_num
  rw [hfl]
  norm_num

/-! ### Claim C2 — idempotence of the normalization -/

/-- Claim C2: the normalization is idempotent.  For any `minQty ≥ 0`, any
`rawQty ≥ 0`, and any positive step of the form `sn / 10^d` (every step is of
this form, `d` being the decimal count of its own textual representation),
normalizing the normalized quantity returns it unchanged.  Note `minQty` here
is arbitrary — idempotence needs no representability proviso. -/
theorem normalizeQty_idem (mq raw : ℚ) (sn d : ℕ) (hsn : 0 < sn)
    (hmq : 0 ≤ mq) (hraw : 0 ≤ raw) :
    normalizeQty mq ((sn : ℚ) / 10 ^ d) d (normalizeQty mq ((sn : ℚ) / 10 ^ d) d raw)
      = normalizeQty mq ((sn : ℚ) / 10 ^ d) d raw := by
  set step : ℚ := (sn : ℚ) / 10 ^ d with hstepdef
  have h10 : (0 : ℚ) < 10 ^ d := pow10_pos d
  have hstep : 0 < step := div_pos (by exact_mod_cast hsn) h10
  have hstep_int : ∃ s : ℤ, step * 10 ^ d = (s : ℚ) :=
    ⟨sn, by rw [hstepdef]; push_cast; exact div_mul_cancel₀ _ h10.ne'⟩
  have ht_int : ∃ j : ℤ, (normalizeQty mq step d raw) * 10 ^ d = (j : ℚ) :=
    ⟨round (clampFloorQty mq step raw * 10 ^ d), by
      unfold normalizeQty
      exact roundToDecimals_mul _ _⟩
  apply normalizeQty_fixed mq step d _ hstep hstep_int ht_int
  rcases clampFloorQty_cases mq step raw with hA | ⟨hB, hBge⟩
  · left
    unfold normalizeQty
    rw [hA]
  · obtain ⟨s, hs⟩ := hstep_int
    have hf_int : ((⌊raw / step⌋ : ℚ) * step) * 10 ^ d = ((⌊raw / step⌋ * s : ℤ) : ℚ) := by
      push_cast
      rw [mul_assoc, hs]
    have hout : normalizeQty mq step d raw = (⌊raw / step⌋ : ℚ) * step := by
      unfold normalizeQty
      rw [hB]
      exact roundToDecimals_of_int _ _ _ hf_int
    right
    refine ⟨⟨⌊raw / step⌋, hout⟩, ?_⟩
    rw [hout, ← hB]
    exact hBge

/-- Witness for `normalizeQty_idem` at the spec's example inputs. -/
theorem normalizeQty_idem_witness :
    normalizeQty (1 / 100 : ℚ) ((1 : ℚ) / 10 ^ 2) 2
        (normalizeQty (1 / 100 : ℚ) ((1 : ℚ) / 10 ^ 2) 2 (127 / 1000))
      = normalizeQty (1 / 100 : ℚ) ((1 : ℚ) / 10 ^ 2) 2 (127 / 1000) :=
  normalizeQty_idem (1 / 100) (127 / 1000) 1 2 (by norm_num) (by norm_num) (by norm_num)

/-! ### Claim C3 — unresolvable tokens always answer 404 with no effects -/

/-- Claim C3: a POST request (on a configured server) whose URL token does
not resolve to a stored webhook row with `expires_at` strictly in the future
is answered 404 — whatever the request body, parseable or not — and the
handler makes no order call, inserts no trade, and updates no bot. -/
theorem processAlert_invalid_token (env : AlertEnv)
    (hm : env.method = "POST") (he : env.envOk = true)
    (hw : ∀ w ∈ env.webhooks,
      ¬(w.webhook_token = jsLastSegment env.path ∧ env.now < w.expires_at)) :
    processAlertHandler env =
      { status := 404, body := .err "Invalid or expired webhook",
        orderCallMade := false, tradeInsert := none, botUpdate := none } := by
  have hres : resolveWebhook env = none := by
    unfold resolveWebhook findSingle
    have hfilter : env.webhooks.filter
        (fun w => w.webhook_token == jsLastSegment env.path &&
          decide (env.now < w.expires_at)) = [] := by
      rw [List.filter_eq_nil_iff]
      intro w hwmem
      have h := hw w hwmem
      simp only [Bool.and_eq_true, beq_iff_eq, decide_eq_true_eq]
      exact fun hc => h ⟨hc.1, hc.2⟩
    rw [hfilter]
  have h1 : ¬(env.method = "OPTIONS") := by
    rw [hm]
    decide
  have h2 : ¬(env.method ≠ "POST") := by
    rw [hm]
    decide
  have h3 : ¬(env.envOk = false) := by
    rw [he]
    decide
  unfold processAlertHandler
  rw [if_neg h1, if_neg h2, if_neg h3, hres]

/-! ### Concrete fixtures for the witnesses -/

/-- A sample bot in test mode with a configured default quantity. -/
def botFixture : BotRow :=
  { symbol := some "BTCUSDT", default_side := none, default_order_type := none,
    default_quantity := some 1, default_stop_loss := none,
    default_take_profit := none, test_mode := true, trade_count := none }

/-- A sample stored webhook whose expiry (50) is already in the past of the
sample clock (100). -/
def webhookFixture : WebhookRow :=
  { webhook_token := "tok1", user_id := "u1", bot_id := "b1", expires_at := 50,
    bots := botFixture }

/-- The same webhook, still valid at the sample clock. -/
def webhookFixtureLive : WebhookRow :=
  { webhookFixture with expires_at := 200 }

/-- A successful instruments-info response. -/
def instInfoFixture : InstInfo :=
  { retCode := 0, retMsg := "OK", minQtyStr := "0.001", stepStr := "0.001" }

/-- Stored bybit credentials for the sample user. -/
def apiKeyFixture : ApiKeyRow :=
  { user_id := "u1", exchange := "bybit", api_key := "k", api_secret := "s" }

/-- A sample environment: POST to the sample token's URL, unparseable body,
expired webhook row. -/
def envFixture : AlertEnv :=
  { method := "POST", envOk := true,
    path := "/.netlify/functions/processAlert/tok1", body := none,
    webhooks := [webhookFixture], apiKeys := [apiKeyFixture],
    instInfo := instInfoFixture, execOutcome := Except.error "unused",
    now := 100, tradeInsertError := false, botUpdateError := false }

/-- The sample environment with the webhook still valid. -/
def envFixtureLive : AlertEnv :=
  { envFixture with webhooks := [webhookFixtureLive] }

/-- Witness for `processAlert_invalid_token`: a concrete request whose stored
webhook expired (the only stored row has `expires_at = 50` while the clock
reads `100`). -/
theorem processAlert_invalid_token_witness :
    processAlertHandler envFixture =
      { status := 404, body := .err "Invalid or expired webhook",
        orderCallMade := false, tradeInsert := none, botUpdate := none } := by
  apply processAlert_invalid_token _ rfl rfl
  intro w hwmem
  simp only [envFixture, List.mem_singleton] at hwmem
  subst hwmem
  exact fun h => absurd h.2 (by decide)

/-! ### Claim C7 — every pre-dispatch failure aborts without side effects -/

/-- Claim C7: when a POST request on a configured server fails before
dispatch — the token does not resolve (404), the credentials are missing
(400), or the instrument-metadata query reports a non-zero `retCode`
(500) — the handler answers with the corresponding error and performs no
side effects: no order call, no trade insert, no bot update. -/
theorem processAlert_predispatch_no_effects (env : AlertEnv)
    (hm : env.method = "POST") (he : env.envOk = true) :
    (resolveWebhook env = none →
      processAlertHandler env =
        { status := 404, body := .err "Invalid or expired webhook",
          orderCallMade := false, tradeInsert := none, botUpdate := none }) ∧
    (∀ w, resolveWebhook env = some w → resolveApiKey env w = none →
      processAlertHandler env =
        { status := 400, body := .err "API credentials not found",
          orderCallMade := false, tradeInsert := none, botUpdate := none }) ∧
    (∀ w k, resolveWebhook env = some w → resolveApiKey env w = some k →
      env.instInfo.retCode ≠ 0 →
      processAlertHandler env =
        { status := 500,
          body := .err ("InstrumentsInfo error: " ++ env.instInfo.retMsg),
          orderCallMade := false, tradeInsert := none, botUpdate := none }) := by
  have h1 : ¬(env.method = "OPTIONS") := by
    rw [hm]
    decide
  have h2 : ¬(env.method ≠ "POST") := by
    rw [hm]
    decide
  have h3 : ¬(env.envOk = false) := by
    rw [he]
    decide
  refine ⟨?_, ?_, ?_⟩
  · intro hw
    unfold processAlertHandler
    rw [if_neg h1, if_neg h2, if_neg h3, hw]
  · intro w hw hk
    unfold processAlertHandler
    rw [if_neg h1, if_neg h2, if_neg h3, hw]
    dsimp only
    rw [hk]
  · intro w k hw hk hr
    unfold processAlertHandler
    rw [if_neg h1, if_neg h2, if_neg h3, hw]
    dsimp only
    rw [hk]
    dsimp only
    rw [if_pos hr]

/-- Witness for `processAlert_predispatch_no_effects`, exercised on the
400 branch: the webhook resolves but no bybit credentials are stored. -/
theorem processAlert_predispatch_no_effects_witness :
    processAlertHandler { envFixtureLive with apiKeys := [] } =
      { status := 400, body := .err "API credentials not found",
        orderCallMade := false, tradeInsert := none, botUpdate := none } :=
  (processAlert_predispatch_no_effects { envFixtureLive with apiKeys := [] } rfl rfl).2.1
    webhookFixtureLive (by decide) (by decide)

/-! ### Claim C9 — an unparseable body is the empty alert -/

/-- Claim C9: a request body that fails to parse as JSON is not an error:
the handler behaves exactly as if the payload were the empty object `{}` —
every order field falls back to the bot's configured defaults and processing
continues to dispatch. -/
theorem processAlert_unparseable_body_as_empty (env : AlertEnv) :
    processAlertHandler { env with body := none } =
      processAlertHandler { env with body := some AlertPayload.empty } := rfl

/-! ### Claim C10 — hardcoded side and order-type defaults -/

lemma jsOr_falsy (a b : Option String) (h : jsStrFalsy a = true) : jsOr a b = b := by
  cases a with
  | none => rfl
  | some s =>
    simp only [jsStrFalsy, beq_iff_eq] at h
    simp [jsOr, h]

lemma jsOrD_falsy (a : Option String) (dflt : String) (h : jsStrFalsy a = true) :
    jsOrD a dflt = dflt := by
  cases a with
  | none => rfl
  | some s =>
    simp only [jsStrFalsy, beq_iff_eq] at h
    simp [jsOrD, h]

lemma jsOrD_truthy (s : String) (dflt : String) (h : s ≠ "") :
    jsOrD (some s) dflt = s := by
  simp [jsOrD, h]

/-- Claim C10: in the `orderParams` construction, when both the payload and
the bot leave `side` (resp. `orderType`) absent or falsy (the empty string),
the order uses the hardcoded `'Buy'` (resp. `'Market'`); and a falsy payload
value is skipped in favor of a truthy bot default, because the fallback
chain uses JavaScript `||`. -/
theorem buildOrderParams_defaults (k : ApiKeyRow) (a : AlertPayload) (bot : BotRow)
    (symbol : String) (qty : ℚ) :
    (jsStrFalsy a.side = true → jsStrFalsy bot.default_side = true →
      (buildOrderParams k a bot symbol qty).side = "Buy") ∧
    (jsStrFalsy a.orderType = true → jsStrFalsy bot.default_order_type = true →
      (buildOrderParams k a bot symbol qty).orderType = "Market") ∧
    (∀ s, jsStrFalsy a.side = true → bot.default_side = some s → s ≠ "" →
      (buildOrderParams k a bot symbol qty).side = s) ∧
    (∀ s, jsStrFalsy a.orderType = true → bot.default_order_type = some s → s ≠ "" →
      (buildOrderParams k a bot symbol qty).orderType = s) := by
  refine ⟨?_, ?_, ?_, ?_⟩
  · intro h1 h2
    show jsOrD (jsOr a.side bot.default_side) "Buy" = "Buy"
    rw [jsOr_falsy _ _ h1, jsOrD_falsy _ _ h2]
  · intro h1 h2
    show jsOrD (jsOr a.orderType bot.default_order_type) "Market" = "Market"
    rw [jsOr_falsy _ _ h1, jsOrD_falsy _ _ h2]
  · intro s h1 h2 h3
    show jsOrD (jsOr a.side bot.default_side) "Buy" = s
    rw [jsOr_falsy _ _ h1, h2, jsOrD_truthy _ _ h3]
  · intro s h1 h2 h3
    show jsOrD (jsOr a.orderType bot.default_order_type) "Market" = s
    rw [jsOr_falsy _ _ h1, h2, jsOrD_truthy _ _ h3]

/-- Witness for `buildOrderParams_defaults`: an empty payload against a bot
with no configured side or order type yields a `'Buy'` `'Market'` order; a
payload with falsy (empty-string) side against a bot configured `'Sell'`
yields `'Sell'`. -/
theorem buildOrderParams_defaults_witness :
    (buildOrderParams apiKeyFixture AlertPayload.empty botFixture "BTCUSDT" 1).side
        = "Buy" ∧
    (buildOrderParams apiKeyFixture AlertPayload.empty botFixture "BTCUSDT" 1).orderType
        = "Market" ∧
    (buildOrderParams apiKeyFixture { AlertPayload.empty with side := some "" }
        { botFixture with default_side := some "Sell" } "BTCUSDT" 1).side = "Sell" := by
  refine ⟨?_, ?_, ?_⟩
  · exact (buildOrderParams_defaults apiKeyFixture AlertPayload.empty botFixture
      "BTCUSDT" 1).1 (by decide) (by decide)
  · exact (buildOrderParams_defaults apiKeyFixture AlertPayload.empty botFixture
      "BTCUSDT" 1).2.1 (by decide) (by decide)
  · exact (buildOrderParams_defaults apiKeyFixture
      { AlertPayload.empty with side := some "" }
      { botFixture with default_side := some "Sell" } "BTCUSDT" 1).2.2.1 "Sell"
      (by decide) (by decide) (by decide)

/-! ### Claim C4 — simulated dispatch -/

/-- A test-mode invocation asking for quantity 2. -/
def envTestQty2 : AlertEnv :=
  { envFixtureLive with body := some { AlertPayload.empty with quantity := some 2 } }

/-- A distinct test-mode invocation asking for quantity 5, arriving in the
same millisecond. -/
def envTestQty5 : AlertEnv :=
  { envFixtureLive with body := some { AlertPayload.empty with quantity := some 5 } }

/-- Claim C4, counterexample to "the synthetic order identifier is distinct
for every invocation": two different test-mode invocations (they carry
different alert payloads and log different trades) processed in the same
millisecond (`Date.now() = 100`) receive the same synthetic identifier
`test-100`, both in the response and in the persisted trade record. -/
theorem processAlert_testMode_orderId_collision :
    envTestQty2.body ≠ envTestQty5.body ∧
    (processAlertHandler envTestQty2).body.orderIdField = some "test-100" ∧
    (processAlertHandler envTestQty5).body.orderIdField = some "test-100" ∧
    ((processAlertHandler envTestQty2).tradeInsert.map TradeInsert.order_id)
      = some "test-100" ∧
    ((processAlertHandler envTestQty5).tradeInsert.map TradeInsert.order_id)
      = some "test-100" := by
  refine ⟨?_, ?_, ?_, ?_, ?_⟩ <;> decide

/-- Claim C4 (amended): a test-mode alert never invokes the external order
call, and both the response and the trade record carry status `TEST_ORDER`
with the synthetic identifier `test-${Date.now()}`; identifiers are distinct
for any two invocations whose `Date.now()` millisecond readings differ
(invocations sharing a millisecond collide, see
`processAlert_testMode_orderId_collision`). -/
theorem processAlert_testMode (env : AlertEnv) (w : WebhookRow) (k : ApiKeyRow)
    (hm : env.method = "POST") (he : env.envOk = true)
    (hw : resolveWebhook env = some w) (ht : w.bots.test_mode = true)
    (hk : resolveApiKey env w = some k) (hr : env.instInfo.retCode = 0) :
    (processAlertHandler env).orderCallMade = false ∧
    (processAlertHandler env).body
      = .ok ("test-" ++ Nat.repr env.now) "TEST_ORDER" true ∧
    ((processAlertHandler env).tradeInsert.map TradeInsert.status)
      = some "TEST_ORDER" ∧
    (∀ env2 w2 k2, env2.method = "POST" → env2.envOk = true →
      resolveWebhook env2 = some w2 → w2.bots.test_mode = true →
      resolveApiKey env2 w2 = some k2 → env2.instInfo.retCode = 0 →
      env.now ≠ env2.now →
      (processAlertHandler env).body.orderIdField
        ≠ (processAlertHandler env2).body.orderIdField) := by
  have hrun : ∀ e : AlertEnv, ∀ we ke, e.method = "POST" → e.envOk = true →
      resolveWebhook e = some we → we.bots.test_mode = true →
      resolveApiKey e we = some ke → e.instInfo.retCode = 0 →
      processAlertHandler e
        = finishAlert e we (simulatedOrder (alertOrderParams e we ke) e.now) false := by
    intro e we ke hm' he' hw' ht' hk' hr'
    have h1 : ¬(e.method = "OPTIONS") := by
      rw [hm']
      decide
    have h2 : ¬(e.method ≠ "POST") := by
      rw [hm']
      decide
    have h3 : ¬(e.envOk = false) := by
      rw [he']
      decide
    have h4 : ¬(e.instInfo.retCode ≠ 0) := fun hc => hc hr'
    unfold processAlertHandler
    rw [if_neg h1, if_neg h2, if_neg h3, hw']
    dsimp only
    rw [hk']
    dsimp only
    rw [if_neg h4, if_pos ht']
  have hme := hrun env w k hm he hw ht hk hr
  refine ⟨?_, ?_, ?_, ?_⟩
  · rw [hme]
    rfl
  · rw [hme]
    show AlertRespBody.ok _ "TEST_ORDER" w.bots.test_mode = _
    rw [ht]
    rfl
  · rw [hme]
    rfl
  · intro env2 w2 k2 hm2 he2 hw2 ht2 hk2 hr2 hne
    have hme2 := hrun env2 w2 k2 hm2 he2 hw2 ht2 hk2 hr2
    rw [hme, hme2]
    intro hc
    simp only [finishAlert, simulatedOrder, AlertRespBody.orderIdField,
      Option.some.injEq] at hc
    exact hne (testOrderId_injective env.now env2.now hc)

/-- Witness for `processAlert_testMode`: the sample test-mode bot at
millisecond 100, contrasted with the same invocation at millisecond 101. -/
theorem processAlert_testMode_witness :
    (processAlertHandler envFixtureLive).orderCallMade = false ∧
    (processAlertHandler envFixtureLive).body = .ok "test-100" "TEST_ORDER" true ∧
    (processAlertHandler envFixtureLive).body.orderIdField
      ≠ (processAlertHandler { envFixtureLive with now := 101 }).body.orderIdField := by
  obtain ⟨ha, hb, _, hd⟩ := processAlert_testMode envFixtureLive webhookFixtureLive
    apiKeyFixture rfl rfl (by decide) (by decide) (by decide) (by decide)
  refine ⟨ha, ?_, ?_⟩
  · rw [hb]
    decide
  · exact hd { envFixtureLive with now := 101 } webhookFixtureLive apiKeyFixture rfl rfl
      (by decide) (by decide) (by decide) (by decide) (by decide)

/-! ### Claim C6 — audit-step failures never surface in the response -/

/-- Claim C6: once dispatch has succeeded (simulated, or the external call
returned a result), the handler answers 200 with the dispatch result's
`orderId` and `status` — and the attempted trade record carries the same
values — no matter whether the trade insert or the bot-counter update
reported an error.  The two error flags influence nothing the caller sees. -/
theorem processAlert_audit_failure_still_200 (env : AlertEnv) (w : WebhookRow)
    (k : ApiKeyRow) (r : OrderResult)
    (hm : env.method = "POST") (he : env.envOk = true)
    (hw : resolveWebhook env = some w) (hk : resolveApiKey env w = some k)
    (hr : env.instInfo.retCode = 0)
    (hd : (w.bots.test_mode = true ∧ r = simulatedOrder (alertOrderParams env w k) env.now)
        ∨ (w.bots.test_mode = false ∧ env.execOutcome = Except.ok r))
    (herr : env.tradeInsertError = true ∨ env.botUpdateError = true) :
    (processAlertHandler env).status = 200 ∧
    (processAlertHandler env).body = .ok r.orderId r.status w.bots.test_mode ∧
    (processAlertHandler env).tradeInsert.map TradeInsert.order_id = some r.orderId ∧
    (processAlertHandler env).tradeInsert.map TradeInsert.status = some r.status := by
  have h1 : ¬(env.method = "OPTIONS") := by
    rw [hm]
    decide
  have h2 : ¬(env.method ≠ "POST") := by
    rw [hm]
    decide
  have h3 : ¬(env.envOk = false) := by
    rw [he]
    decide
  have h4 : ¬(env.instInfo.retCode ≠ 0) := fun hc => hc hr
  rcases hd with ⟨ht, hre⟩ | ⟨ht, hexec⟩
  · have hrun : processAlertHandler env = finishAlert env w r false := by
      unfold processAlertHandler
      rw [if_neg h1, if_neg h2, if_neg h3, hw]
      dsimp only
      rw [hk]
      dsimp only
      rw [if_neg h4, if_pos ht, ← hre]
    rw [hrun]
    exact ⟨rfl, rfl, rfl, rfl⟩
  · have hfalse : ¬(w.bots.test_mode = true) := by
      rw [ht]
      decide
    have hrun : processAlertHandler env = finishAlert env w r true := by
      unfold processAlertHandler
      rw [if_neg h1, if_neg h2, if_neg h3, hw]
      dsimp only
      rw [hk]
      dsimp only
      rw [if_neg h4, if_neg hfalse, hexec]
    rw [hrun]
    exact ⟨rfl, rfl, rfl, rfl⟩

/-- Witness for `processAlert_audit_failure_still_200`: the sample test-mode
invocation with a failing trade insert still answers 200 and `test-100`. -/
theorem processAlert_audit_failure_still_200_witness :
    (processAlertHandler { envFixtureLive with tradeInsertError := true }).status
        = 200 ∧
    (processAlertHandler { envFixtureLive with tradeInsertError := true }).body.orderIdField
        = some "test-100" := by
  have h := processAlert_audit_failure_still_200
    { envFixtureLive with tradeInsertError := true } webhookFixtureLive apiKeyFixture
    (simulatedOrder (alertOrderParams { envFixtureLive with tradeInsertError := true }
      webhookFixtureLive apiKeyFixture) 100)
    rfl rfl (by decide) (by decide) (by decide) (Or.inl ⟨by decide, rfl⟩)
    (Or.inl (by decide))
  refine ⟨h.1, ?_⟩
  rw [h.2.1]
  decide

/-! ### Claim C8 — missing fields reject with 400 and no insert -/

/-- Claim C8: a POST to generateWebhook (on a configured server) whose parsed
body lacks `userId` or lacks `botId` (absent or falsy) is answered 400 with
no webhook row inserted. -/
theorem generateWebhook_missing_fields (env : GenEnv) (b : GenBody)
    (hm : env.method = "POST") (he : env.envOk = true)
    (hb : env.body = some b)
    (hf : jsStrFalsy b.userId = true ∨ jsStrFalsy b.botId = true) :
    generateWebhookHandler env =
      { status := 400, body := .err "Missing required fields", insert := none } := by
  have h1 : ¬(env.method = "OPTIONS") := by
    rw [hm]
    decide
  have h2 : ¬(env.method ≠ "POST") := by
    rw [hm]
    decide
  have h3 : ¬(env.envOk = false) := by
    rw [he]
    decide
  have hcond : (jsStrFalsy b.userId || jsStrFalsy b.botId) = true := by
    rcases hf with h | h <;> simp [h]
  unfold generateWebhookHandler
  rw [if_neg h1, if_neg h2, if_neg h3, hb]
  dsimp only
  rw [if_pos hcond]

/-- A parsed body missing its `botId`. -/
def genBodyNoBot : GenBody :=
  { userId := some "u1", botId := none, expirationDays := none }

/-- A complete parsed body requesting a 30-day expiry. -/
def genBodyFull : GenBody :=
  { userId := some "u1", botId := some "b1", expirationDays := some 30 }

/-- A 32-character token over the nanoid alphabet. -/
def tokenFixture : String := "abcdefghijklmnopqrstuvwxyzABCDEF"

/-- A sample generateWebhook invocation with a complete body. -/
def genEnvFixture : GenEnv :=
  { method := "POST", envOk := true, body := some genBodyFull,
    token := tokenFixture, protocolHost := "https://example.com",
    now := 1000, insertError := none }

/-- Witness for `generateWebhook_missing_fields`: a body with a `userId` but
no `botId` is rejected with 400 and no insert. -/
theorem generateWebhook_missing_fields_witness :
    generateWebhookHandler { genEnvFixture with body := some genBodyNoBot } =
      { status := 400, body := .err "Missing required fields", insert := none } :=
  generateWebhook_missing_fields { genEnvFixture with body := some genBodyNoBot }
    genBodyNoBot rfl rfl rfl (Or.inr (by decide))

/-! ### Claim C5 — webhook issuance: expiry arithmetic and token placement -/

/-- Claim C5: a successful generateWebhook request with `expirationDays = 30`
issued at time `D` answers 200 whose `expiresAt` is exactly `D` plus 30 days
(serialized as ISO-8601 by `toISOString`, embedded here as the millisecond
timestamp), and the last path segment of the returned `webhookUrl` is the
generated 32-character token verbatim — the same token persisted in the
inserted `webhooks` row together with that same expiry. -/
theorem generateWebhook_expiry_and_token (env : GenEnv) (b : GenBody)
    (hm : env.method = "POST") (he : env.envOk = true)
    (hb : env.body = some b)
    (hu : jsStrFalsy b.userId = false) (hbot : jsStrFalsy b.botId = false)
    (hdays : b.expirationDays = some 30)
    (hins : env.insertError = none)
    (htok : ∀ c ∈ env.token.data, c ∈ nanoidAlphabet.data)
    (hlen : env.token.length = 32) :
    (generateWebhookHandler env).status = 200 ∧
    (∃ url, (generateWebhookHandler env).body = .ok url (env.now + 30 * dayMs) ∧
      jsLastSegment url = env.token) ∧
    ((generateWebhookHandler env).insert.map WebhookInsert.webhook_token)
      = some env.token ∧
    ((generateWebhookHandler env).insert.map WebhookInsert.expires_at)
      = some (env.now + 30 * dayMs) := by
  have h1 : ¬(env.method = "OPTIONS") := by
    rw [hm]
    decide
  have h2 : ¬(env.method ≠ "POST") := by
    rw [hm]
    decide
  have h3 : ¬(env.envOk = false) := by
    rw [he]
    decide
  have hcond : ¬((jsStrFalsy b.userId || jsStrFalsy b.botId) = true) := by
    simp [hu, hbot]
  have hslash : '/' ∉ env.token.data := fun hmem => absurd (htok '/' hmem) (by decide)
  have hurl : env.protocolHost ++ "/.netlify/functions/processAlert/" ++ env.token
      = (env.protocolHost ++ "/.netlify/functions/processAlert") ++ "/" ++ env.token := by
    apply String.ext
    simp [String.data_append]
  unfold generateWebhookHandler
  rw [if_neg h1, if_neg h2, if_neg h3, hb]
  dsimp only
  rw [if_neg hcond]
  rw [hdays, hins]
  refine ⟨rfl, ⟨env.protocolHost ++ "/.netlify/functions/processAlert/" ++ env.token,
    rfl, ?_⟩, rfl, rfl⟩
  rw [hurl]
  exact jsLastSegment_append _ _ hslash

/-- Witness for `generateWebhook_expiry_and_token` on the sample invocation
at time 1000 with the sample 32-character token. -/
theorem generateWebhook_expiry_and_token_witness :
    (generateWebhookHandler genEnvFixture).status = 200 ∧
    (∃ url, (generateWebhookHandler genEnvFixture).body
        = .ok url (1000 + 30 * dayMs) ∧
      jsLastSegment url = tokenFixture) ∧
    ((generateWebhookHandler genEnvFixture).insert.map WebhookInsert.webhook_token)
      = some tokenFixture ∧
    ((generateWebhookHandler genEnvFixture).insert.map WebhookInsert.expires_at)
      = some (1000 + 30 * dayMs) :=
  generateWebhook_expiry_and_token genEnvFixture genBodyFull rfl rfl rfl
    (by decide) (by decide) rfl rfl (by decide) (by decide)

end TradingBot
